import Mathlib

/-!
Verification of the serialization, view-wrapper and test-helper behavior of
django-microapi.

The development shallowly embeds the library's pure logic:

* `collect_field_names`, `to_dict`, `from_dict` — `microapi/serializers.py`
  (`ModelSerializer`);
* `read_json`, `render`, `render_error`, `dispatch` — `microapi/views.py`
  (`ApiView`);
* `check_response`, `assertResponseEquals` — `microapi/tests.py`.

Model objects are records carrying Django field metadata (`_meta.fields`)
and an attribute store read by `getattr`.  Fallible Python code is embedded
as `Except PyErr`.  JSON values are the inductive `Json`.
-/

/-- A JSON-like Python value: the payloads handled by the library
(`None`, booleans, numbers, strings, lists, dicts). -/
inductive Json where
  | null
  | bool (b : Bool)
  | num (n : Int)
  | str (s : String)
  | arr (elems : List Json)
  | obj (fields : List (String × Json))

/-- Python `==` on JSON-like values: structural equality.  (The embedded
values contain no floats, so there is no `NaN` caveat.) -/
def pyEq : Json → Json → Bool
  | .null, .null => true
  | .bool a, .bool b => a == b
  | .num a, .num b => a == b
  | .str a, .str b => a == b
  | .arr (a :: as), .arr (b :: bs) => pyEq a b && pyEq (.arr as) (.arr bs)
  | .arr [], .arr [] => true
  | .obj ((k, v) :: as), .obj ((k2, v2) :: bs) =>
      k == k2 && pyEq v v2 && pyEq (.obj as) (.obj bs)
  | .obj [], .obj [] => true
  | _, _ => false

/-- Python exceptions raised (or propagated) by the embedded code.
`InvalidFieldError` and `ApiError` are the library's own exception classes
(`microapi/exceptions.py`); the rest are Python built-ins. -/
inductive PyErr where
  | apiError (msg : String)
  | invalidFieldError (msg : String)
  | dataValidationError (msg : String)
  | attributeError (msg : String)
  | typeError (msg : String)
  | valueError (msg : String)
  | assertionError (msg : String)
deriving DecidableEq

/-- Python `str(err)`: the message an exception was constructed with. -/
def PyErr.text : PyErr → String
  | .apiError msg => msg
  | .invalidFieldError msg => msg
  | .dataValidationError msg => msg
  | .attributeError msg => msg
  | .typeError msg => msg
  | .valueError msg => msg
  | .assertionError msg => msg

/-- Comparison of characters by Unicode code point, as Python compares the
characters of strings. -/
def charLt (a b : Char) : Bool := a.val.toNat < b.val.toNat

/-- Lexicographic comparison of character lists by code point: the order
Python's `sorted` uses on `str` values. -/
def listCharLe : List Char → List Char → Bool
  | [], _ => true
  | _ :: _, [] => false
  | a :: as, b :: bs =>
      if charLt a b then true
      else if charLt b a then false
      else listCharLe as bs

/-- Python string comparison `s <= t` (lexicographic by code point). -/
def pyStrLe (s t : String) : Bool := listCharLe s.data t.data

/-- `pyStrLe` as a relation, for use with the sorting machinery. -/
def pyRel : String → String → Prop := fun a b => pyStrLe a b = true

instance pyRelDecidable : DecidableRel pyRel :=
  fun a b => instDecidableEqBool (pyStrLe a b) true

/-- Python `sorted` on a list of strings. -/
def pySort (l : List String) : List String := l.insertionSort pyRel

/-- One entry of a Django model's `_meta.fields`: the attribute name the
value is stored under, the database column (`none` for virtual fields),
and the `generated` / `RelatedField` markers the serializer checks. -/
structure ModelField where
  attname : String
  column : Option String
  generated : Bool
  isRelatedField : Bool
deriving DecidableEq

/-- A Django model instance as the serializer sees it: its type's field
metadata (`model._meta.fields`) and its attribute store (read by `getattr`,
written by `setattr`). -/
structure Model where
  fields : List ModelField
  attrs : String → Json

/-- Python `getattr(model, name)` for a concrete model field: reads the
stored value. -/
def pyGetattr (model : Model) (name : String) : Json := model.attrs name

/-- `ModelSerializer.collect_field_names` (serializers.py:16-46): walk
`model._meta.fields`, skip fields whose `column` is `None` or that are
`generated`, skip `RelatedField`s, gather the remaining `attname`s into a
set, and return them alphabetically sorted. -/
def collect_field_names (model : Model) : List String :=
  let field_names :=
    (model.fields.filter fun field =>
      !(field.column.isNone || field.generated) && !field.isRelatedField).map
      ModelField.attname
  pySort field_names.dedup

/-- The key sequence of an insertion-ordered mapping. -/
def odKeys (d : List (String × Json)) : List String := d.map Prod.fst

/-- `data[k] = v` on an insertion-ordered mapping (`OrderedDict`): update in
place when the key is present, append otherwise. -/
def odInsert (d : List (String × Json)) (k : String) (v : Json) :
    List (String × Json) :=
  if k ∈ odKeys d then
    d.map fun p => if p.1 = k then (k, v) else p
  else d ++ [(k, v)]

/-- `data.pop(k, None)` on a mapping: remove the entry for `k`, if any.
Mapping keys are unique, so removing the key is a filter. -/
def odPop (d : List (String × Json)) (k : String) : List (String × Json) :=
  d.filter fun p => decide (p.1 ≠ k)

/-- `ModelSerializer.to_dict` (serializers.py:48-74): populate an
`OrderedDict` with each eligible field's current value, in sorted field
order, then `pop` every name listed in `exclude`.  (The Python default
`exclude=None` is normalized to the empty list.) -/
def to_dict (model : Model) (exclude : List String) : List (String × Json) :=
  let field_list := collect_field_names model
  let data := field_list.foldl (fun d field_name =>
    odInsert d field_name (pyGetattr model field_name)) []
  exclude.foldl (fun d exclude_name => odPop d exclude_name) data

/-- `ModelSerializer.from_dict` (serializers.py:76-103).  The body computes
the eligible field list and then runs
`for key, value in data.iteritems(): ...`.  A Python 3 `dict` has no
`iteritems` method (it was removed with Python 2), so evaluating the loop
iterator raises `AttributeError` before any pair is processed; the `strict`
check and the assignment are never reached.  (The assignment line itself,
`setattr(model, value)`, would also fail: `setattr` needs three
arguments.) -/
def from_dict (model : Model) (data : List (String × Json)) (strict : Bool) :
    Except PyErr Model :=
  let _field_list := collect_field_names model
  let _ := (data, strict)
  Except.error (PyErr.attributeError "dict object has no attribute iteritems")

/-- Attribute read with explicit state passing: `getattr` on a concrete
model field returns the stored value and leaves the object untouched. -/
def getattr_state (model : Model) (name : String) : Json × Model :=
  (model.attrs name, model)

/-- `to_dict` with the model state threaded through every attribute access,
to make the serializer's effect (or absence of effect) on the model
explicit. -/
def to_dict_track (model : Model) (exclude : List String) :
    List (String × Json) × Model :=
  let filled := (collect_field_names model).foldl
    (fun acc field_name =>
      (odInsert acc.1 field_name (getattr_state acc.2 field_name).1,
        (getattr_state acc.2 field_name).2)) ([], model)
  (exclude.foldl (fun d exclude_name => odPop d exclude_name) filled.1,
    filled.2)

namespace http

/-- Modelled from the spec: the repository's `microapi/http.py` module of
named HTTP status constants is not present under `src/`; spec section 6
lists the vocabulary "200 OK, 201 Created, 202 Accepted, 204 No Content,
400 Bad Request, 401 Unauthorized, 403 Forbidden, 404 Not Found,
405 Method Not Allowed, 500 Application Error". -/
def OK : Nat := 200

/-- Modelled from the spec: "201 Created". -/
def CREATED : Nat := 201

/-- Modelled from the spec: "202 Accepted". -/
def ACCEPTED : Nat := 202

/-- Modelled from the spec: "204 No Content". -/
def NO_CONTENT : Nat := 204

/-- Modelled from the spec: "400 Bad Request". -/
def BAD_REQUEST : Nat := 400

/-- Modelled from the spec: "401 Unauthorized". -/
def UNAUTHORIZED : Nat := 401

/-- Modelled from the spec: "403 Forbidden". -/
def FORBIDDEN : Nat := 403

/-- Modelled from the spec: "404 Not Found". -/
def NOT_FOUND : Nat := 404

/-- Modelled from the spec: "405 Method Not Allowed". -/
def NOT_ALLOWED : Nat := 405

/-- Modelled from the spec: "500 Application Error". -/
def APP_ERROR : Nat := 500

end http

/-- A `JsonResponse`: an HTTP status code plus a JSON body. -/
structure JsonResponse where
  status_code : Nat
  content : Json

/-- The `msgs` argument of `render_error`: Python lets it be a single
string, a list, or a tuple. -/
inductive Msgs where
  | strMsg (s : String)
  | listMsg (l : List String)
  | tupleMsg (l : List String)

/-- `ApiView.render` (views.py:125-137): wrap `data` in a `JsonResponse`
with the given status code.  (The Python default is `http.OK`.) -/
def render (data : Json) (status_code : Nat) : JsonResponse :=
  { status_code := status_code, content := data }

/-- `ApiView.render_error` (views.py:139-163): a `msgs` value that is not a
list or tuple is wrapped into a one-element list, then the error envelope
is rendered.  (The Python default status code is `http.APP_ERROR`.) -/
def render_error (msgs : Msgs) (status_code : Nat) : JsonResponse :=
  let msgs_list :=
    match msgs with
    | .strMsg s => [s]
    | .listMsg l => l
    | .tupleMsg l => l
  render
    (Json.obj [("success", Json.bool false),
               ("errors", Json.arr (msgs_list.map Json.str))])
    status_code

/-- `ApiView.dispatch` (views.py:75-97): run the inherited dispatch (which
routes to the verb handler, whose outcome `handler_result` abstracts); on an
exception, re-raise when `bubble_exceptions` is set, otherwise answer with
`render_error(str(err))` at the default status `http.APP_ERROR`. -/
def dispatch (bubble_exceptions : Bool)
    (handler_result : Except PyErr JsonResponse) : Except PyErr JsonResponse :=
  match handler_result with
  | .ok resp => .ok resp
  | .error err =>
      if bubble_exceptions then .error err
      else .ok (render_error (Msgs.strMsg (PyErr.text err)) http.APP_ERROR)

/-- The text a request or response body holds, classified by whether
Python's `json.loads` accepts it: either valid JSON text (decoding to the
given value) or text that is not valid JSON. -/
inductive BodyText where
  | jsonText (v : Json)
  | invalidText (raw : String)

/-- Python's `json.loads` on body text: the decoded value for valid JSON,
`ValueError` (`json.JSONDecodeError`) otherwise. -/
def json_loads : BodyText → Except PyErr Json
  | .jsonText v => .ok v
  | .invalidText raw => .error (.valueError raw)

/-- The request as `read_json` consumes it: the declared content type
(`request.headers.get("Content-type", "")`, the empty string when the
header is absent) and the readable request body. -/
structure HttpRequest where
  content_type : String
  body : BodyText

/-- `ApiView.read_json` (views.py:99-123): under `strict`, reject a
declared content type outside `["application/json"]` with
`ApiError("Invalid Content-type provided.")`; then decode the body,
converting a JSON `ValueError` into
`ApiError("Invalid JSON payload provided.")`.  (The Python default is
`strict=True`.) -/
def read_json (request : HttpRequest) (strict : Bool) : Except PyErr Json :=
  let valid_content_types := ["application/json"]
  if strict && !(valid_content_types.contains request.content_type) then
    Except.error (PyErr.apiError "Invalid Content-type provided.")
  else
    match json_loads request.body with
    | .ok decoded => .ok decoded
    | .error _ => .error (PyErr.apiError "Invalid JSON payload provided.")

/-- A response body as `check_response` reads it: empty, valid JSON text,
or text that is not valid JSON. -/
inductive RespBody where
  | emptyBody
  | jsonText (v : Json)
  | invalidText (raw : String)

/-- A response as the test helpers consume it: its headers and its readable
body. -/
structure TestHttpResponse where
  headers : List (String × String)
  body : RespBody

/-- Python `headers.get(name, default)`: the value stored under `name`, or
the default. -/
def headers_get (headers : List (String × String))
    (name default_value : String) : String :=
  match headers.find? (fun p => p.1 == name) with
  | some p => p.2
  | none => default_value

/-- Whether `hay` begins with `needle`, character by character. -/
def charsBeginWith : List Char → List Char → Bool
  | [], _ => true
  | _ :: _, [] => false
  | a :: as, b :: bs => a == b && charsBeginWith as bs

/-- Whether `needle` occurs contiguously somewhere in `hay`. -/
def charsContain (needle : List Char) : List Char → Bool
  | [] => charsBeginWith needle []
  | b :: bs => charsBeginWith needle (b :: bs) || charsContain needle bs

/-- Python `needle in haystack` on strings: substring containment. -/
def str_contains (haystack needle : String) : Bool :=
  charsContain needle.toList haystack.toList

/-- `check_response` (tests.py:159-187): assert `"application/json"` occurs
in the `Content-Type` header, read the body, return `json.loads` of it when
non-empty and the empty dict otherwise. -/
def check_response (resp : TestHttpResponse) : Except PyErr Json :=
  if !(str_contains (headers_get resp.headers "Content-Type" "")
        "application/json") then
    Except.error (PyErr.assertionError "")
  else
    match resp.body with
    | .emptyBody => Except.ok (Json.obj [])
    | .jsonText v => Except.ok v
    | .invalidText raw => Except.error (PyErr.valueError raw)

/-- `ApiTestCase.assertResponseEquals` (tests.py:413-432): run
`check_response`, then execute the final line `assert data == data` — the
expected data is compared with itself; the decoded response data
(`resp_data`) is never consulted. -/
def assertResponseEquals (resp : TestHttpResponse) (data : Json) :
    Except PyErr Unit :=
  match check_response resp with
  | .error e => .error e
  | .ok _resp_data =>
      if pyEq data data then .ok () else .error (.assertionError "")

/-- The `_meta.fields` of the test project's `BlogPost` model
(test_microapi/models.py): `id` (auto primary key), `title`, `slug`,
`content`, `published_by` (a `ForeignKey`, stored under attname
`published_by_id`), `published_on`. -/
def blogPostFields : List ModelField :=
  [{ attname := "id", column := some "id",
     generated := false, isRelatedField := false },
   { attname := "title", column := some "title",
     generated := false, isRelatedField := false },
   { attname := "slug", column := some "slug",
     generated := false, isRelatedField := false },
   { attname := "content", column := some "content",
     generated := false, isRelatedField := false },
   { attname := "published_by_id", column := some "published_by_id",
     generated := false, isRelatedField := true },
   { attname := "published_on", column := some "published_on",
     generated := false, isRelatedField := false }]

/-- A freshly constructed `BlogPost()` instance. -/
def freshBlogPost : Model :=
  { fields := blogPostFields, attrs := fun _ => Json.null }

/-- The mapping the repository's own `test_from_dict` passes to
`from_dict`. -/
def lifeUpdateData : List (String × Json) :=
  [("title", Json.str "Life Update"),
   ("content", Json.str "So, it has been awhile...")]

/-- The mapping of `test_from_dict_strict_fail`: one ineligible key
(`lmao`) among eligible ones. -/
def strictFailData : List (String × Json) :=
  [("lmao", Json.str "so_invalid"),
   ("title", Json.str "Life Update"),
   ("content", Json.str "So, it has been awhile...")]

/-- A concrete successful JSON response, for exercising the test
helpers. -/
def okJsonResponse : TestHttpResponse :=
  { headers := [("Content-Type", "application/json")],
    body := RespBody.jsonText (Json.obj [("success", Json.bool true)]) }

/-! ## Order lemmas for the Python string comparison -/

theorem listCharLe_cons (x y : Char) (xs ys : List Char) :
    listCharLe (x :: xs) (y :: ys) = true ↔
      (x.val.toNat < y.val.toNat ∨
        (x.val.toNat = y.val.toNat ∧ listCharLe xs ys = true)) := by
  simp only [listCharLe, charLt]
  split
  · next h =>
    simp only [decide_eq_true_eq] at h
    simp only [true_iff]
    exact Or.inl h
  · next h =>
    simp only [decide_eq_true_eq] at h
    split
    · next h2 =>
      simp only [decide_eq_true_eq] at h2
      constructor
      · intro hfalse
        exact absurd hfalse (by simp)
      · rintro (hlt | ⟨heq, _⟩)
        · omega
        · omega
    · next h2 =>
      simp only [decide_eq_true_eq] at h2
      constructor
      · intro hle
        exact Or.inr ⟨by omega, hle⟩
      · rintro (hlt | ⟨_, hle⟩)
        · omega
        · exact hle

theorem listCharLe_total (a b : List Char) :
    listCharLe a b = true ∨ listCharLe b a = true := by
  induction a generalizing b with
  | nil => exact Or.inl rfl
  | cons x xs ih =>
    cases b with
    | nil => exact Or.inr rfl
    | cons y ys =>
      rcases ih ys with h | h
      · rcases Nat.lt_trichotomy x.val.toNat y.val.toNat with hlt | heq | hgt
        · exact Or.inl ((listCharLe_cons x y xs ys).mpr (Or.inl hlt))
        · exact Or.inl ((listCharLe_cons x y xs ys).mpr (Or.inr ⟨heq, h⟩))
        · exact Or.inr ((listCharLe_cons y x ys xs).mpr (Or.inl hgt))
      · rcases Nat.lt_trichotomy x.val.toNat y.val.toNat with hlt | heq | hgt
        · exact Or.inl ((listCharLe_cons x y xs ys).mpr (Or.inl hlt))
        · exact Or.inr ((listCharLe_cons y x ys xs).mpr (Or.inr ⟨heq.symm, h⟩))
        · exact Or.inr ((listCharLe_cons y x ys xs).mpr (Or.inl hgt))

theorem listCharLe_trans (a b c : List Char) (hab : listCharLe a b = true)
    (hbc : listCharLe b c = true) : listCharLe a c = true := by
  induction a generalizing b c with
  | nil => rfl
  | cons x xs ih =>
    cases b with
    | nil => simp [listCharLe] at hab
    | cons y ys =>
      cases c with
      | nil => simp [listCharLe] at hbc
      | cons z zs =>
        rw [listCharLe_cons] at hab hbc ⊢
        rcases hab with h1 | ⟨he1, hl1⟩
        · rcases hbc with h2 | ⟨he2, _⟩
          · exact Or.inl (by omega)
          · exact Or.inl (by omega)
        · rcases hbc with h2 | ⟨he2, hl2⟩
          · exact Or.inl (by omega)
          · exact Or.inr ⟨by omega, ih ys zs hl1 hl2⟩

theorem pyEq_of_eq (a b : Json) (hab : a = b) : pyEq a b = true := by
  induction a, b using pyEq.induct
  case case9 a b h1 h2 h3 h4 h5 h6 h7 h8 =>
    subst hab
    cases a with
    | null => exact (h1 rfl rfl).elim
    | bool bb => exact (h2 bb bb rfl rfl).elim
    | num n => exact (h3 n n rfl rfl).elim
    | str s => exact (h4 s s rfl rfl).elim
    | arr l =>
      cases l with
      | nil => exact (h6 rfl rfl).elim
      | cons a as => exact (h5 a as a as rfl rfl).elim
    | obj l =>
      cases l with
      | nil => exact (h8 rfl rfl).elim
      | cons p as =>
        obtain ⟨k, v⟩ := p
        exact (h7 k v as k v as rfl rfl).elim
  all_goals simp_all [pyEq]

theorem pyEq_refl (j : Json) : pyEq j j = true := pyEq_of_eq j j rfl

/-! ## Sorting and field-name collection -/

theorem pySort_sorted (l : List String) : (pySort l).Sorted pyRel := by
  haveI : IsTotal String pyRel := ⟨fun a b => listCharLe_total a.data b.data⟩
  haveI : IsTrans String pyRel :=
    ⟨fun a b c => listCharLe_trans a.data b.data c.data⟩
  exact List.sorted_insertionSort pyRel l

theorem pySort_perm (l : List String) : List.Perm (pySort l) l :=
  List.perm_insertionSort pyRel l

theorem pySort_nodup (l : List String) (h : l.Nodup) : (pySort l).Nodup :=
  (pySort_perm l).nodup_iff.mpr h

theorem pySort_mem (a : String) (l : List String) : a ∈ pySort l ↔ a ∈ l :=
  (pySort_perm l).mem_iff

theorem eligible_iff (f : ModelField) :
    ((!(f.column.isNone || f.generated) && !f.isRelatedField) = true) ↔
      (f.column ≠ none ∧ f.generated = false ∧ f.isRelatedField = false) := by
  simp only [Bool.and_eq_true, Bool.not_eq_true', Bool.or_eq_false_iff,
    Option.isNone_eq_false_iff, Option.isSome_iff_ne_none, and_assoc]

theorem collect_field_names_nodup (m : Model) :
    (collect_field_names m).Nodup := by
  unfold collect_field_names
  exact pySort_nodup _ (List.nodup_dedup _)

theorem collect_field_names_sorted (m : Model) :
    (collect_field_names m).Sorted pyRel := by
  unfold collect_field_names
  exact pySort_sorted _

theorem collect_field_names_mem (m : Model) (a : String) :
    a ∈ collect_field_names m ↔
      ∃ f ∈ m.fields,
        (f.column ≠ none ∧ f.generated = false ∧ f.isRelatedField = false) ∧
          f.attname = a := by
  unfold collect_field_names
  rw [pySort_mem, List.mem_dedup, List.mem_map]
  constructor
  · rintro ⟨f, hf, rfl⟩
    rw [List.mem_filter] at hf
    exact ⟨f, hf.1, (eligible_iff f).mp hf.2, rfl⟩
  · rintro ⟨f, hmem, helig, rfl⟩
    exact ⟨f, List.mem_filter.mpr ⟨hmem, (eligible_iff f).mpr helig⟩, rfl⟩

/-! ## Keys of the ordered mapping built by `to_dict` -/

theorem odKeys_append (d e : List (String × Json)) :
    odKeys (d ++ e) = odKeys d ++ odKeys e :=
  List.map_append _ _ _

theorem odInsert_new (d : List (String × Json)) (k : String) (v : Json)
    (h : k ∉ odKeys d) : odInsert d k v = d ++ [(k, v)] := by
  unfold odInsert
  rw [if_neg h]

theorem odKeys_fold (f : String → Json) (l : List String) :
    ∀ d : List (String × Json), l.Nodup → (∀ k ∈ l, k ∉ odKeys d) →
      odKeys (l.foldl (fun d' n => odInsert d' n (f n)) d) = odKeys d ++ l := by
  induction l with
  | nil =>
    intro d _ _
    simp
  | cons x xs ih =>
    intro d hnd hdisj
    rw [List.foldl_cons, odInsert_new d x (f x) (hdisj x (List.mem_cons_self x xs)),
      ih (d ++ [(x, f x)]) hnd.of_cons ?_]
    · simp [odKeys]
    · intro k hk
      have h1 : k ≠ x := fun he => (List.nodup_cons.mp hnd).1 (he ▸ hk)
      have h2 : k ∉ odKeys d := hdisj k (List.mem_cons_of_mem _ hk)
      simp only [odKeys_append, List.mem_append]
      rintro (hc | hc)
      · exact h2 hc
      · exact h1 (by simpa [odKeys] using hc)

theorem odKeys_pop (d : List (String × Json)) (k : String) :
    odKeys (odPop d k) = (odKeys d).filter (fun n => decide (n ≠ k)) := by
  unfold odPop odKeys
  induction d with
  | nil => rfl
  | cons p ps ih =>
    by_cases h : p.1 = k
    · simp_all [List.filter_cons]
    · simp_all [List.filter_cons]

theorem odKeys_popfold (E : List String) :
    ∀ d : List (String × Json),
      odKeys (E.foldl (fun d' n => odPop d' n) d) =
        (odKeys d).filter (fun n => decide (n ∉ E)) := by
  induction E with
  | nil =>
    intro d
    simp
  | cons e es ih =>
    intro d
    rw [List.foldl_cons, ih, odKeys_pop, List.filter_filter]
    apply List.filter_congr
    intro a _
    simp [List.mem_cons, not_or, Bool.and_comm]

theorem to_dict_keys_eq (m : Model) (E : List String) :
    odKeys (to_dict m E) =
      (collect_field_names m).filter (fun n => decide (n ∉ E)) := by
  unfold to_dict
  rw [odKeys_popfold,
    odKeys_fold (pyGetattr m) (collect_field_names m) []
      (collect_field_names_nodup m) (by intro k _; simp [odKeys])]
  simp [odKeys]

/-! ## Sanity: the embedding reproduces the repository's own serializer test
expectations for `BlogPost` -/

theorem collect_field_names_blogPost :
    collect_field_names freshBlogPost =
      ["content", "id", "published_on", "slug", "title"] := by decide

theorem track_fold (l : List String) :
    ∀ (d : List (String × Json)) (m : Model),
      l.foldl (fun acc field_name =>
          (odInsert acc.1 field_name (getattr_state acc.2 field_name).1,
            (getattr_state acc.2 field_name).2)) (d, m) =
        (l.foldl (fun d' field_name =>
          odInsert d' field_name (pyGetattr m field_name)) d, m) := by
  induction l with
  | nil =>
    intro d m
    rfl
  | cons x xs ih =>
    intro d m
    rw [List.foldl_cons, List.foldl_cons]
    exact ih (odInsert d x (pyGetattr m x)) m

theorem read_json_eval (r : HttpRequest) :
    read_json r true =
      if r.content_type = "application/json" then
        (match r.body with
          | BodyText.jsonText v => Except.ok v
          | BodyText.invalidText _ =>
              Except.error (PyErr.apiError "Invalid JSON payload provided."))
      else Except.error (PyErr.apiError "Invalid Content-type provided.") := by
  have hc : (["application/json"].contains r.content_type) =
      decide (r.content_type ∈ ["application/json"]) := List.elem_eq_mem _ _
  unfold read_json json_loads
  by_cases hct : r.content_type = "application/json"
  · rw [if_pos hct]
    cases r.body <;> simp [hc, hct]
  · rw [if_neg hct]
    simp [hc, hct]

/-! ## Claim theorems -/

/-- Claim C1 (refuted by the code): `from_dict(O, M)` with `strict=False` is
supposed to assign each key/value pair of M onto the matching field of O
and return the same, mutated, unsaved object.  The code instead raises
`AttributeError` before processing any pair, because it iterates with the
Python 2 `dict.iteritems` (and its assignment line calls `setattr` with two
arguments); evaluated here on the repository's own `test_from_dict`
input. -/
theorem from_dict_assignment_broken :
    from_dict freshBlogPost lifeUpdateData false =
      Except.error
        (PyErr.attributeError "dict object has no attribute iteritems") := rfl

/-- Claim C2 (refuted by the code): `from_dict(O, M, strict=True)` is
supposed to raise nothing when every key of M is eligible, and to raise
`InvalidFieldError` when some key is not.  On the all-eligible input of
`test_from_dict_strict_success` the code raises `AttributeError` anyway,
and on the `test_from_dict_strict_fail` input it raises that same
`AttributeError`, not an `InvalidFieldError`. -/
theorem from_dict_strict_broken :
    from_dict freshBlogPost lifeUpdateData true =
        Except.error
          (PyErr.attributeError "dict object has no attribute iteritems") ∧
      from_dict freshBlogPost strictFailData true =
        Except.error
          (PyErr.attributeError "dict object has no attribute iteritems") :=
  ⟨rfl, rfl⟩

/-- Claim C3 (refuted by the code): the round trip — populate a fresh
object from an all-eligible mapping, then serialize with `to_dict` — never
gets past the first step, because `from_dict` cannot return an object at
all: it always raises. -/
theorem from_dict_round_trip_broken :
    (from_dict freshBlogPost lifeUpdateData false).isOk = false := rfl

/-- Claim C4: for every model object and exclude-list E, each key of
`to_dict(O, E)` is an eligible field name of O and is not in E, and the key
order equals the sorted eligible-field-name list with the members of E
removed. -/
theorem to_dict_keys_spec (m : Model) (E : List String) :
    (∀ k ∈ odKeys (to_dict m E), k ∈ collect_field_names m ∧ k ∉ E) ∧
      odKeys (to_dict m E) =
        (collect_field_names m).filter (fun n => decide (n ∉ E)) := by
  refine ⟨?_, to_dict_keys_eq m E⟩
  intro k hk
  rw [to_dict_keys_eq m E, List.mem_filter] at hk
  exact ⟨hk.1, by simpa using hk.2⟩

/-- Witness for C4: evaluated on the `BlogPost` model with `exclude =
["id"]`. -/
theorem to_dict_keys_spec_witness :
    "title" ∈ collect_field_names freshBlogPost ∧
      "title" ∉ (["id"] : List String) :=
  (to_dict_keys_spec freshBlogPost ["id"]).1 "title" (by decide)

/-- Claim C5: `collect_field_names` returns an alphabetically sorted list
without duplicates; and — the attribute names of a Django model's fields
being pairwise distinct — no relational, generated, or virtual field
contributes its name. -/
theorem collect_field_names_spec (m : Model) :
    (collect_field_names m).Sorted pyRel ∧ (collect_field_names m).Nodup ∧
      ((m.fields.map ModelField.attname).Nodup →
        ∀ f ∈ m.fields,
          (f.column = none ∨ f.generated = true ∨ f.isRelatedField = true) →
            f.attname ∉ collect_field_names m) := by
  refine ⟨collect_field_names_sorted m, collect_field_names_nodup m, ?_⟩
  intro hnd f hf hbad hmem
  rw [collect_field_names_mem] at hmem
  obtain ⟨g, hg, ⟨hc, hgen, hrel⟩, hattr⟩ := hmem
  have hgf : g = f := List.inj_on_of_nodup_map hnd hg hf hattr
  subst hgf
  rcases hbad with h | h | h
  · exact hc h
  · rw [hgen] at h
    exact Bool.false_ne_true h
  · rw [hrel] at h
    exact Bool.false_ne_true h

/-- Witness for C5: on `BlogPost`, the `ForeignKey` stored under attname
`published_by_id` does not appear among the collected field names. -/
theorem collect_field_names_spec_witness :
    (⟨"published_by_id", some "published_by_id", false, true⟩ :
        ModelField).attname ∉ collect_field_names freshBlogPost :=
  (collect_field_names_spec freshBlogPost).2.2 (by decide)
    ⟨"published_by_id", some "published_by_id", false, true⟩
    (by decide) (Or.inr (Or.inr rfl))

/-- Claim C6: `read_json(R, strict=True)` fails with
`ApiError("Invalid Content-type provided.")` exactly when R's declared
content type is not `application/json`; with the JSON content type it
returns the decoded body, and fails with
`ApiError("Invalid JSON payload provided.")` exactly when the body is not
valid JSON. -/
theorem read_json_strict_spec (r : HttpRequest) :
    (read_json r true =
        Except.error (PyErr.apiError "Invalid Content-type provided.") ↔
      r.content_type ≠ "application/json") ∧
      (∀ v, r.content_type = "application/json" →
        r.body = BodyText.jsonText v → read_json r true = Except.ok v) ∧
      (∀ raw, r.content_type = "application/json" →
        r.body = BodyText.invalidText raw →
        read_json r true =
          Except.error (PyErr.apiError "Invalid JSON payload provided.")) := by
  rw [read_json_eval]
  by_cases hct : r.content_type = "application/json"
  · rw [if_pos hct]
    refine ⟨?_, ?_, ?_⟩
    · constructor
      · intro h
        cases hb : r.body <;> rw [hb] at h <;> simp_all
      · intro h
        exact absurd hct h
    · intro v _ hb
      rw [hb]
    · intro raw _ hb
      rw [hb]
  · rw [if_neg hct]
    refine ⟨⟨fun _ => hct, fun _ => rfl⟩, ?_, ?_⟩
    · intro v hv _
      exact absurd hv hct
    · intro raw hv _
      exact absurd hv hct

/-- Witness for C6: a strict read of a request with the JSON content type
and a valid JSON body returns the decoded value; one with a wrong content
type is rejected. -/
theorem read_json_strict_spec_witness :
    read_json
        { content_type := "application/json",
          body := BodyText.jsonText (Json.obj [("a", Json.num 1)]) } true =
      Except.ok (Json.obj [("a", Json.num 1)]) :=
  (read_json_strict_spec _).2.1 _ rfl rfl

/-- Claim C7: when the verb handler raises an exception `e`, `dispatch`
re-raises it unchanged if `bubble_exceptions` is set, and otherwise returns
`render_error(str(e))` at the default server-error status 500. -/
theorem dispatch_exception_spec (bubble : Bool) (e : PyErr)
    (handler_result : Except PyErr JsonResponse)
    (h : handler_result = Except.error e) :
    dispatch bubble handler_result =
      if bubble then Except.error e
      else Except.ok (render_error (Msgs.strMsg (PyErr.text e)) 500) := by
  subst h
  cases bubble <;> rfl

/-- Witness for C7: a handler failure with `bubble_exceptions` unset is
converted into the 500 error envelope. -/
theorem dispatch_exception_spec_witness :
    dispatch false (Except.error (PyErr.apiError "boom")) =
      Except.ok (render_error (Msgs.strMsg "boom") 500) := by
  have h := dispatch_exception_spec false (PyErr.apiError "boom")
    (Except.error (PyErr.apiError "boom")) rfl
  simpa using h

/-- Claim C8: `render_error` of a single string and of the one-element list
produce identical responses, whose body is the error envelope holding that
one message. -/
theorem render_error_normalization (m : String) :
    render_error (Msgs.strMsg m) 500 = render_error (Msgs.listMsg [m]) 500 ∧
      (render_error (Msgs.strMsg m) 500).content =
        Json.obj [("success", Json.bool false),
                  ("errors", Json.arr [Json.str m])] :=
  ⟨rfl, rfl⟩

/-- Claim C9: `to_dict` only reads field values: with the model state
threaded through every attribute access, the model coming out is the model
that went in, and the produced mapping is exactly `to_dict`'s. -/
theorem to_dict_reads_only (m : Model) (exclude : List String) :
    (to_dict_track m exclude).2 = m ∧
      (to_dict_track m exclude).1 = to_dict m exclude := by
  have h := track_fold (collect_field_names m) [] m
  unfold to_dict_track to_dict
  rw [h]
  exact ⟨rfl, rfl⟩

/-- Claim C10: whenever `check_response` accepts a response,
`assertResponseEquals` succeeds for every expected value — its final
assertion is `assert data == data`, which never consults the response
data. -/
theorem assertResponseEquals_vacuous (resp : TestHttpResponse) (j d : Json)
    (h : check_response resp = Except.ok j) :
    assertResponseEquals resp d = Except.ok () := by
  unfold assertResponseEquals
  rw [h]
  simp [pyEq_refl]

/-- Witness for C10: a well-formed JSON response passes
`assertResponseEquals` against expected data that differs from its body. -/
theorem assertResponseEquals_vacuous_witness :
    assertResponseEquals okJsonResponse (Json.str "different") =
      Except.ok () :=
  assertResponseEquals_vacuous okJsonResponse
    (Json.obj [("success", Json.bool true)]) (Json.str "different") rfl
